import Mathlib

/-!
# Verification of the secret-configuration client (src/shared/vault-client.ts)

Shallow embedding of the TypeScript secret-configuration client: the
`VaultClient` secret accessor and the `VaultConfigManager` config cache with
environment fallback and periodic token renewal.  Network transport is modelled
as an oracle: each operation takes the outcome of its HTTP request(s) as an
explicit argument (an `Except TransportError` value carrying the decoded
response body on success).  JavaScript runtime values that the code manipulates
dynamically are modelled by `JVal` (with an explicit `undef` for `undefined`);
JavaScript numbers are modelled as integers, which covers every value the
claims are about.
-/

/-- A JavaScript runtime value as it appears in a secret payload:
`undefined`, a string, a number (modelled as an integer), or a boolean. -/
inductive JVal where
  | undef : JVal
  | str : String → JVal
  | num : Int → JVal
  | bool : Bool → JVal
deriving DecidableEq, Repr

/-- A secret payload: a JavaScript object mapping string keys to values
(the `VaultSecret` interface, vault-client.ts lines 10-12). -/
abbrev VaultSecret := List (String × JVal)

/-- JavaScript `Record` lookup on an association list: the first binding for
the key, `none` when the key is absent (i.e. the property is `undefined`). -/
def recordGet {α : Type} : List (String × α) → String → Option α
  | [], _ => none
  | (k, v) :: rest, p => if k = p then some v else recordGet rest p

/-- JavaScript `Record` assignment `r[k] = v`: replaces the first binding for
`k` when present, otherwise appends a new binding. -/
def recordSet {α : Type} : List (String × α) → String → α → List (String × α)
  | [], k, v => [(k, v)]
  | (k', v') :: rest, k, v =>
      if k' = k then (k, v) :: rest else (k', v') :: recordSet rest k v

/-- Property access `payload[k]` on a secret payload: `undefined` when the key
is absent, the stored value otherwise. -/
def secretGet (s : VaultSecret) (k : String) : JVal :=
  (recordGet s k).getD JVal.undef

/-- A transport-level failure: an HTTP error response (with its status when
one was received) or a network failure (no status). -/
structure TransportError where
  status : Option Nat
  message : String
deriving DecidableEq, Repr

/-- Outcome of a JavaScript async call at the API boundary: a resolved value
or a thrown `Error` carrying its message. -/
inductive JsResult (α : Type) where
  | ok : α → JsResult α
  | err : String → JsResult α
deriving DecidableEq, Repr

/-- Decoded body of a KV-v2 read response, inner level: the `data.data` object
holding the payload, which a malformed body may omit. -/
structure KvReadInner where
  data : Option VaultSecret
deriving DecidableEq, Repr

/-- Decoded body of a KV-v2 read response, outer level: the `data` object,
which a malformed body may omit (property access on it then throws). -/
structure KvReadBody where
  data : Option KvReadInner
deriving DecidableEq, Repr

/-- The normalization `path.replace(/^\//, "")` applied throughout the
accessor: at most one leading slash is removed. -/
def stripLeadingSlash (path : String) : String :=
  match path.data with
  | '/' :: rest => { data := rest }
  | _ => path

/-- The request path `getSecret` reads, vault-client.ts line 63:
`secret/data/` followed by the input path with one leading slash stripped. -/
def VaultClient.getSecretRequestPath (path : String) : String :=
  "secret/data/" ++ stripLeadingSlash path

/-- `VaultClient.getSecret` (vault-client.ts lines 60-70) applied to the
outcome of its transport request.  On a resolved response it evaluates
`response.data.data.data`: when the outer `data` object is absent this throws
(a `TypeError`, caught and rethrown as the generic read error); when only the
inner payload is absent it resolves to `undefined`.  Any caught error is
rethrown as `Error("Failed to read secret: " + path)`. -/
def VaultClient.getSecret (path : String)
    (transport : Except TransportError KvReadBody) :
    JsResult (Option VaultSecret) :=
  match transport with
  | .error _ => .err ("Failed to read secret: " ++ path)
  | .ok body =>
    match body.data with
    | none => .err ("Failed to read secret: " ++ path)
    | some inner => .ok inner.data

/-- `VaultClient.setSecret` (vault-client.ts lines 75-84) applied to the
outcome of its transport request: any failure is rethrown as
`Error("Failed to write secret: " + path)`. -/
def VaultClient.setSecret (path : String)
    (transport : Except TransportError Unit) : JsResult Unit :=
  match transport with
  | .error _ => .err ("Failed to write secret: " ++ path)
  | .ok _ => .ok ()

/-- Decoded body of a KV-v2 LIST response: the `data.data` object with its
optional `keys` field (vault-client.ts line 107 reads `data.data.keys`). -/
structure KvListInner where
  keys : Option (List String)
deriving DecidableEq, Repr

/-- Decoded body of a KV-v2 LIST response, outer `data` object. -/
structure KvListBody where
  data : KvListInner
deriving DecidableEq, Repr

/-- `VaultClient.listSecrets` (vault-client.ts lines 101-112) applied to the
outcome of its transport request: on success returns
`response.data.data.keys || []`; on transport failure rethrows as
`Error("Failed to list secrets: " + path)`. -/
def VaultClient.listSecrets (path : String)
    (transport : Except TransportError KvListBody) : JsResult (List String) :=
  match transport with
  | .error _ => .err ("Failed to list secrets: " ++ path)
  | .ok body => .ok (body.data.keys.getD [])

/-- `VaultClient.healthCheck` (vault-client.ts lines 143-152) applied to the
outcome of its unauthenticated GET: on a resolved response it returns
`response.status === 200`; any thrown error is caught and `false` returned. -/
def VaultClient.healthCheck (response : Except TransportError Nat) : Bool :=
  match response with
  | .ok status => status == 200
  | .error _ => false

/-- The value `getSecrets` stores for one path (vault-client.ts lines
161-167): the payload `getSecret` resolved to on success, the empty object
`{}` when `getSecret` threw (the `catch` branch). -/
def getSecretsValue (fetch : String → Except TransportError KvReadBody)
    (path : String) : Option VaultSecret :=
  match VaultClient.getSecret path (fetch path) with
  | .ok v => v
  | .err _ => some []

/-- One assignment `results[path] = ...` performed by `getSecrets`. -/
def getSecretsStep (fetch : String → Except TransportError KvReadBody)
    (acc : List (String × Option VaultSecret)) (path : String) :
    List (String × Option VaultSecret) :=
  recordSet acc path (getSecretsValue fetch path)

/-- `VaultClient.getSecrets` (vault-client.ts lines 157-172): builds the
`results` record by performing one guarded assignment per input path.  The
source issues the per-path reads concurrently; since each path's stored value
depends only on that path's own outcome and assignments to distinct keys
commute, the resulting record (as a mapping) is the same as this sequential
fold. -/
def VaultClient.getSecrets (fetch : String → Except TransportError KvReadBody)
    (paths : List String) : List (String × Option VaultSecret) :=
  paths.foldl (getSecretsStep fetch) []

/-- JavaScript `Number(s)` on a string, restricted to the integer-literal
values this client encounters: the empty (or all-whitespace) string converts
to `0`, an integer literal to its value, anything else to `NaN` (`none`). -/
def jsStringToNumber (s : String) : Option Int :=
  let t := s.trim
  if t = "" then some 0 else t.toInt?

/-- JavaScript `Number(v)` on a runtime value; `none` models `NaN`. -/
def jsNumber : JVal → Option Int
  | JVal.undef => none
  | JVal.str s => jsStringToNumber s
  | JVal.num n => some n
  | JVal.bool b => some (if b then 1 else 0)

/-- JavaScript `Number(v) || d`: the default replaces `NaN` and `0` (both
falsy); any other number is kept. -/
def jsNumberOr (v : JVal) (d : Int) : Int :=
  match jsNumber v with
  | none => d
  | some n => if n = 0 then d else n

/-- JavaScript `s || d` on an optional environment string: the default
replaces an absent variable and the empty string (falsy); any other string is
kept. -/
def jsStrOr (v : Option String) (d : String) : String :=
  match v with
  | none => d
  | some s => if s = "" then d else s

/-- An environment-variable value (`process.env.X`) as a runtime value:
`undefined` when absent, the string otherwise. -/
def envJVal : Option String → JVal
  | none => JVal.undef
  | some s => JVal.str s

/-- The `AuthServiceConfig` record (vault-integration.ts lines 246-257).
String-typed fields hold whatever runtime value the composition produced (the
`as string` casts in the source are unchecked), so they are modelled as
`JVal`; the numeric fields go through `Number(...) || default` and are always
numbers. -/
structure AuthServiceConfig where
  jwtSecret : JVal
  sessionTimeout : Int
  maxLoginAttempts : Int
  lockoutDuration : Int
  googleClientId : JVal
  googleClientSecret : JVal
  oauthCallbackUrl : JVal
  redisHost : JVal
  redisPort : Int
  redisPassword : JVal
deriving DecidableEq, Repr

/-- The process environment variables the fallback resolver reads
(vault-integration.ts lines 379-389); each is a string or absent. -/
structure Env where
  JWT_SECRET : Option String
  SESSION_TIMEOUT : Option String
  MAX_LOGIN_ATTEMPTS : Option String
  LOCKOUT_DURATION : Option String
  GOOGLE_CLIENT_ID : Option String
  GOOGLE_CLIENT_SECRET : Option String
  OAUTH_CALLBACK_URL : Option String
  REDIS_HOST : Option String
  REDIS_PORT : Option String
  REDIS_PASSWORD : Option String
deriving DecidableEq, Repr

/-- The mutable state of a `VaultConfigManager` instance: the cached config
(`this.config`, initially `null`) and its timestamp in milliseconds
(`this.configCacheTime`, initially `0`). -/
structure ManagerState where
  config : Option AuthServiceConfig
  configCacheTime : Int
deriving DecidableEq, Repr

/-- `CACHE_DURATION` (vault-integration.ts line 263): five minutes in
milliseconds. -/
def VaultConfigManager.CACHE_DURATION : Int := 5 * 60 * 1000

/-- `getFallbackConfig` (vault-integration.ts lines 375-390): a pure function
of the process environment, combining each variable with its documented
default. -/
def VaultConfigManager.getFallbackConfig (env : Env) : AuthServiceConfig where
  jwtSecret := JVal.str (jsStrOr env.JWT_SECRET "fallback-secret-change-me")
  sessionTimeout := jsNumberOr (envJVal env.SESSION_TIMEOUT) 1800
  maxLoginAttempts := jsNumberOr (envJVal env.MAX_LOGIN_ATTEMPTS) 5
  lockoutDuration := jsNumberOr (envJVal env.LOCKOUT_DURATION) 900
  googleClientId := JVal.str (jsStrOr env.GOOGLE_CLIENT_ID "")
  googleClientSecret := JVal.str (jsStrOr env.GOOGLE_CLIENT_SECRET "")
  oauthCallbackUrl := JVal.str (jsStrOr env.OAUTH_CALLBACK_URL "")
  redisHost := JVal.str (jsStrOr env.REDIS_HOST "redis")
  redisPort := jsNumberOr (envJVal env.REDIS_PORT) 6379
  redisPassword := JVal.str (jsStrOr env.REDIS_PASSWORD "")

/-- Outcomes of the four constituent `getSecret` calls issued by `getConfig`
(vault-integration.ts lines 302-307), named after the destructured variables. -/
structure SecretReads where
  jwtConfig : JsResult (Option VaultSecret)
  authConfig : JsResult (Option VaultSecret)
  oauthConfig : JsResult (Option VaultSecret)
  redisConfig : JsResult (Option VaultSecret)
deriving DecidableEq, Repr

/-- A read outcome usable by the composition: a resolved, present payload.
A rejected read makes `Promise.all` reject; a resolved `undefined` payload
makes the subsequent property access in the composition throw.  Either way the
`try` block fails. -/
def okSome : JsResult (Option VaultSecret) → Option VaultSecret
  | .ok (some s) => some s
  | _ => none

/-- The composed configuration object (vault-integration.ts lines 310-321)
built from the four resolved payloads. -/
def composeConfig (jwtConfig authConfig oauthConfig redisConfig : VaultSecret) :
    AuthServiceConfig where
  jwtSecret := secretGet jwtConfig "secret"
  sessionTimeout := jsNumberOr (secretGet authConfig "session_timeout") 1800
  maxLoginAttempts := jsNumberOr (secretGet authConfig "max_login_attempts") 5
  lockoutDuration := jsNumberOr (secretGet authConfig "lockout_duration") 900
  googleClientId := secretGet oauthConfig "google_client_id"
  googleClientSecret := secretGet oauthConfig "google_client_secret"
  oauthCallbackUrl := secretGet oauthConfig "oauth_callback_url"
  redisHost := secretGet redisConfig "host"
  redisPort := jsNumberOr (secretGet redisConfig "port") 6379
  redisPassword := secretGet redisConfig "password"

/-- The outcome of `getConfig`'s `try` block given the four read outcomes:
`some` composed config when all four resolve to present payloads, `none`
(an exception reached the `catch`) otherwise. -/
def composeOutcome (reads : SecretReads) : Option AuthServiceConfig := do
  let j ← okSome reads.jwtConfig
  let a ← okSome reads.authConfig
  let o ← okSome reads.oauthConfig
  let r ← okSome reads.redisConfig
  pure (composeConfig j a o r)

/-- The cache-validity test at vault-integration.ts line 289:
`this.config && Date.now() - this.configCacheTime < this.CACHE_DURATION`,
returning the cached config on a hit. -/
def cacheHit (st : ManagerState) (now : Int) : Option AuthServiceConfig :=
  match st.config with
  | some c =>
      if now - st.configCacheTime < VaultConfigManager.CACHE_DURATION then some c
      else none
  | none => none

/-- Result of one `getConfig` call: the returned configuration, the manager
state after the call, and whether the 4-way fetch was performed. -/
structure GetConfigOut where
  result : AuthServiceConfig
  state : ManagerState
  fetched : Bool
deriving DecidableEq, Repr

/-- `VaultConfigManager.getConfig` (vault-integration.ts lines 287-333) as a
state transition: on a cache hit, return the cached config without fetching;
otherwise perform the 4-way fetch — on success store the composed config with
the current timestamp and return it, on any failure return the fallback config
and leave the stored entry and timestamp untouched. -/
def VaultConfigManager.getConfig (st : ManagerState) (now : Int) (env : Env)
    (reads : SecretReads) : GetConfigOut :=
  match cacheHit st now with
  | some c => { result := c, state := st, fetched := false }
  | none =>
    match composeOutcome reads with
    | some c =>
        { result := c
          state := { config := some c, configCacheTime := now }
          fetched := true }
    | none =>
        { result := VaultConfigManager.getFallbackConfig env
          state := st
          fetched := true }

/-- `VaultConfigManager.updateSecret` (vault-integration.ts lines 346-358) as
a state transition: on a successful write, clear the cached config and reset
its timestamp to 0; on failure, rethrow the write error and leave the state
unchanged. -/
def VaultConfigManager.updateSecret (st : ManagerState) (path : String)
    (transport : Except TransportError Unit) : JsResult Unit × ManagerState :=
  match VaultClient.setSecret path transport with
  | .ok _ => (.ok (), { config := none, configCacheTime := 0 })
  | .err e => (.err e, st)

/-- The interval of the renewal timer installed by `setupTokenRenewal`
(vault-integration.ts line 404): 50 minutes in milliseconds, for a single
recurring `setInterval` task. -/
def VaultConfigManager.RENEWAL_INTERVAL_MS : Nat := 50 * 60 * 1000

/-- The body of one renewal tick (vault-integration.ts lines 397-404) applied
to the outcome of its `renewToken` call: `some msg` would be an exception
escaping the callback (killing the periodic task through an unhandled
rejection), `none` a completed tick.  The `try`/`catch` makes both the success
and the failure branch complete normally. -/
def renewalTickBody : Except String Unit → Option String
  | .ok _ => none
  | .error _ => none

/-- The state of the periodic renewal task: how many ticks have run and
whether the timer is still scheduled. -/
structure RenewalLoop where
  ticksFired : Nat
  alive : Bool
deriving DecidableEq, Repr

/-- One scheduled firing of the renewal timer: if the loop is alive the tick
body runs — an escaping exception would kill the loop, a normal completion
leaves it scheduled; a dead loop no longer fires. -/
def stepRenewalLoop (loop : RenewalLoop) (r : Except String Unit) : RenewalLoop :=
  if loop.alive then
    match renewalTickBody r with
    | some _ => { ticksFired := loop.ticksFired + 1, alive := false }
    | none => { ticksFired := loop.ticksFired + 1, alive := true }
  else loop

/-- The renewal loop run against a sequence of per-tick `renewToken`
outcomes, starting from a freshly installed timer. -/
def runRenewalLoop (outcomes : List (Except String Unit)) : RenewalLoop :=
  outcomes.foldl stepRenewalLoop { ticksFired := 0, alive := true }

/-- A process environment with every variable the client reads absent. -/
def envAllNone : Env where
  JWT_SECRET := none
  SESSION_TIMEOUT := none
  MAX_LOGIN_ATTEMPTS := none
  LOCKOUT_DURATION := none
  GOOGLE_CLIENT_ID := none
  GOOGLE_CLIENT_SECRET := none
  OAUTH_CALLBACK_URL := none
  REDIS_HOST := none
  REDIS_PORT := none
  REDIS_PASSWORD := none

/-- A freshly constructed manager: no cached config, timestamp 0. -/
def emptyState : ManagerState where
  config := none
  configCacheTime := 0

/-- A manager holding a cached config stamped at time 0. -/
def cachedState : ManagerState where
  config := some (VaultConfigManager.getFallbackConfig envAllNone)
  configCacheTime := 0

/-- Read outcomes in which the jwt/config read rejects and the other three
resolve. -/
def failingReads : SecretReads where
  jwtConfig := JsResult.err "Failed to read secret: jwt/config"
  authConfig := JsResult.ok (some [])
  oauthConfig := JsResult.ok (some [])
  redisConfig := JsResult.ok (some [])

/-- Read outcomes in which all four reads resolve to present payloads. -/
def okReads : SecretReads where
  jwtConfig := JsResult.ok (some [("secret", JVal.str "jwt-signing-key")])
  authConfig := JsResult.ok (some [("session_timeout", JVal.str "3600")])
  oauthConfig := JsResult.ok (some [])
  redisConfig := JsResult.ok (some [("host", JVal.str "redis-main")])

/-- The configuration `okReads` composes to. -/
def okComposed : AuthServiceConfig :=
  composeConfig [("secret", JVal.str "jwt-signing-key")]
    [("session_timeout", JVal.str "3600")] [] [("host", JVal.str "redis-main")]

/-! ## Helper lemmas -/

theorem recordGet_recordSet {α : Type} (r : List (String × α)) (k p : String) (v : α) :
    recordGet (recordSet r k v) p = if k = p then some v else recordGet r p := by
  induction r with
  | nil => simp [recordSet, recordGet]
  | cons hd tl ih =>
    obtain ⟨k', v'⟩ := hd
    by_cases hk : k' = k
    · subst hk
      by_cases hp : k' = p <;> simp [recordSet, recordGet, hp]
    · by_cases hp1 : k' = p <;> by_cases hp2 : k = p
      · exact absurd (hp1.trans hp2.symm) hk
      · have hp2' : ¬ p = k := fun h => hp2 h.symm
        simp [recordSet, recordGet, hk, hp1, hp2, hp2', ih]
      · subst hp2
        simp [recordSet, recordGet, hk, hp1, ih]
      · simp [recordSet, recordGet, hk, hp1, hp2, ih]

theorem getSecrets_foldl_get (fetch : String → Except TransportError KvReadBody)
    (p : String) (paths : List String) (acc : List (String × Option VaultSecret)) :
    recordGet (paths.foldl (getSecretsStep fetch) acc) p =
      if p ∈ paths then some (getSecretsValue fetch p) else recordGet acc p := by
  induction paths generalizing acc with
  | nil => simp
  | cons q rest ih =>
    rw [List.foldl_cons, ih]
    by_cases h1 : p ∈ rest
    · simp [h1]
    · by_cases h2 : q = p
      · subst h2
        simp [h1, getSecretsStep, recordGet_recordSet]
      · have h2' : ¬ p = q := fun h => h2 h.symm
        simp [h1, h2, h2', getSecretsStep, recordGet_recordSet]

theorem composeOutcome_eq_none_of_read_failure (reads : SecretReads)
    (h : (∃ m, reads.jwtConfig = JsResult.err m) ∨
         (∃ m, reads.authConfig = JsResult.err m) ∨
         (∃ m, reads.oauthConfig = JsResult.err m) ∨
         (∃ m, reads.redisConfig = JsResult.err m)) :
    composeOutcome reads = none := by
  cases hj : okSome reads.jwtConfig <;>
    cases ha : okSome reads.authConfig <;>
      cases ho : okSome reads.oauthConfig <;>
        cases hr : okSome reads.redisConfig <;>
          rcases h with ⟨m, hm⟩ | ⟨m, hm⟩ | ⟨m, hm⟩ | ⟨m, hm⟩ <;>
            simp_all [composeOutcome, okSome]

theorem cacheHit_none_mono (st : ManagerState) (t1 t2 : Int)
    (h : cacheHit st t1 = none) (hle : t1 ≤ t2) : cacheHit st t2 = none := by
  cases hc : st.config with
  | none => simp [cacheHit, hc]
  | some c =>
    simp only [cacheHit, hc] at h ⊢
    by_cases h1 : t1 - st.configCacheTime < VaultConfigManager.CACHE_DURATION
    · rw [if_pos h1] at h
      exact absurd h (by simp)
    · have h2 : ¬ t2 - st.configCacheTime < VaultConfigManager.CACHE_DURATION := by
        omega
      rw [if_neg h2]

theorem renewal_foldl_alive (outcomes : List (Except String Unit)) (n : Nat) :
    outcomes.foldl stepRenewalLoop { ticksFired := n, alive := true } =
      { ticksFired := n + outcomes.length, alive := true } := by
  induction outcomes generalizing n with
  | nil => simp
  | cons o rest ih =>
    have hstep : stepRenewalLoop { ticksFired := n, alive := true } o =
        { ticksFired := n + 1, alive := true } := by
      cases o <;> simp [stepRenewalLoop, renewalTickBody]
    rw [List.foldl_cons, hstep, ih]
    simp [Nat.add_assoc, Nat.add_comm 1 rest.length]

/-! ## Claim theorems -/

/-- Claim C3: for every list of paths, `getSecrets` never raises and returns a
mapping whose key set is exactly the set of input paths; a path whose
individual `getSecret` resolves maps to that payload, and a path whose
`getSecret` throws maps to the empty payload (the model is a total function,
so no execution raises, and an individual failure never omits its path). -/
theorem getSecrets_batch_mapping (fetch : String → Except TransportError KvReadBody)
    (paths : List String) (p : String) :
    recordGet (VaultClient.getSecrets fetch paths) p =
      if p ∈ paths then
        some (match VaultClient.getSecret p (fetch p) with
              | JsResult.ok v => v
              | JsResult.err _ => some [])
      else none := by
  rw [VaultClient.getSecrets, getSecrets_foldl_get]
  simp only [recordGet]
  rfl

/-- Claim C4 counterexample: on a resolved response whose envelope carries no
inner payload, `getSecret` resolves to `undefined` instead of failing with a
`SecretNotFoundError`; and a transport failure produces exactly the same
generic error as a malformed envelope, so the failure cases the claim calls
distinguishable are not distinguishable to the caller. -/
theorem getSecret_error_taxonomy_counterexample :
    VaultClient.getSecret "jwt/config"
        (Except.ok { data := some { data := none } }) = JsResult.ok none ∧
    VaultClient.getSecret "jwt/config"
        (Except.error { status := some 500, message := "connect ECONNREFUSED" }) =
      VaultClient.getSecret "jwt/config" (Except.ok { data := none }) := by
  exact ⟨rfl, rfl⟩

/-- Claim C4 (amended): `getSecret(path)` issues its read against
`secret/data/<path>` (one leading slash stripped) and unwraps the
double-nested envelope; a transport failure, and likewise a response without
the outer `data` object, are rethrown as the single generic error
`Failed to read secret: <path>` (no distinct error types), while a response
whose inner payload is absent resolves to `undefined` without raising. -/
theorem getSecret_single_generic_error (path : String) :
    (∀ e, VaultClient.getSecret path (Except.error e) =
        JsResult.err ("Failed to read secret: " ++ path)) ∧
    VaultClient.getSecret path (Except.ok { data := none }) =
      JsResult.err ("Failed to read secret: " ++ path) ∧
    (∀ inner, VaultClient.getSecret path (Except.ok { data := some inner }) =
        JsResult.ok inner.data) ∧
    VaultClient.getSecretRequestPath "/jwt/config" = "secret/data/jwt/config" ∧
    VaultClient.getSecretRequestPath "jwt/config" = "secret/data/jwt/config" := by
  refine ⟨fun e => rfl, rfl, fun inner => rfl, ?_, ?_⟩ <;> decide

/-- Claim C5: `listSecrets` returns the `keys` field of the response envelope,
defaulting to the empty sequence when that field is absent (a path with no
children yields an empty list, not an error), and raises only on transport
failure. -/
theorem listSecrets_empty_is_ok (path : String) :
    (∀ ks, VaultClient.listSecrets path
        (Except.ok { data := { keys := some ks } }) = JsResult.ok ks) ∧
    VaultClient.listSecrets path (Except.ok { data := { keys := none } }) =
      JsResult.ok [] ∧
    (∀ e, VaultClient.listSecrets path (Except.error e) =
        JsResult.err ("Failed to list secrets: " ++ path)) := by
  exact ⟨fun ks => rfl, rfl, fun e => rfl⟩

/-- Claim C8: the renewal loop is a single recurring timer with a 50-minute
interval, and a failing `renewToken` call in any tick is caught inside that
tick, so after any sequence of tick outcomes — however many failures — the
timer is still alive and every scheduled tick has fired. -/
theorem tokenRenewal_survives_failures (outcomes : List (Except String Unit)) :
    VaultConfigManager.RENEWAL_INTERVAL_MS = 50 * 60 * 1000 ∧
    runRenewalLoop outcomes = { ticksFired := outcomes.length, alive := true } := by
  refine ⟨rfl, ?_⟩
  have h := renewal_foldl_alive outcomes 0
  simpa [runRenewalLoop] using h

/-- Claim C9: `healthCheck` is total (the model returns a `Bool`, never an
error) and returns `true` exactly when the health request resolved with HTTP
status 200; every error outcome and every other status yields `false`. -/
theorem healthCheck_true_iff_status_200 (r : Except TransportError Nat) :
    VaultClient.healthCheck r = true ↔ r = Except.ok 200 := by
  cases r with
  | ok s => simp [VaultClient.healthCheck]
  | error e => simp [VaultClient.healthCheck]

/-- Claim C1: when the 4-way fetch runs (no valid cache entry) and at least
one of the four constituent reads fails, `getConfig` returns the
environment-derived fallback configuration instead of raising, leaves the
stored entry and its timestamp untouched (the fallback is never cached), and
any later call therefore attempts the live 4-way fetch again. -/
theorem getConfig_fallback_not_cached
    (st : ManagerState) (now now2 : Int) (env : Env) (reads reads2 : SecretReads)
    (hmiss : cacheHit st now = none)
    (hfail : (∃ m, reads.jwtConfig = JsResult.err m) ∨
             (∃ m, reads.authConfig = JsResult.err m) ∨
             (∃ m, reads.oauthConfig = JsResult.err m) ∨
             (∃ m, reads.redisConfig = JsResult.err m))
    (hle : now ≤ now2) :
    VaultConfigManager.getConfig st now env reads =
      { result := VaultConfigManager.getFallbackConfig env, state := st,
        fetched := true } ∧
    (VaultConfigManager.getConfig st now2 env reads2).fetched = true := by
  have hnone := composeOutcome_eq_none_of_read_failure reads hfail
  have hmiss2 := cacheHit_none_mono st now now2 hmiss hle
  constructor
  · simp only [VaultConfigManager.getConfig, hmiss, hnone]
  · simp only [VaultConfigManager.getConfig, hmiss2]
    cases h2 : composeOutcome reads2 <;> simp [h2]

/-- Claim C1 witness: a fresh manager at time 0, a failing jwt read; the call
returns the fallback and leaves the state untouched, and a call at time 5
fetches again. -/
theorem getConfig_fallback_not_cached_witness :
    cacheHit emptyState 0 = none ∧
    (VaultConfigManager.getConfig emptyState 0 envAllNone failingReads =
      { result := VaultConfigManager.getFallbackConfig envAllNone,
        state := emptyState, fetched := true } ∧
    (VaultConfigManager.getConfig emptyState 5 envAllNone failingReads).fetched =
      true) :=
  ⟨rfl,
   getConfig_fallback_not_cached emptyState 0 5 envAllNone failingReads
     failingReads rfl (Or.inl ⟨"Failed to read secret: jwt/config", rfl⟩)
     (by decide)⟩

/-- Claim C2: when a first `getConfig` call performs the 4-way fetch and all
four reads resolve to present payloads, a second call strictly less than
`CACHE_DURATION` later (with no intervening write) performs no secret reads —
the first call fetched, the second is a pure cache hit — and returns the same
composed configuration with the state unchanged. -/
theorem getConfig_second_call_cache_hit
    (st : ManagerState) (t1 t2 : Int) (env : Env) (reads1 reads2 : SecretReads)
    (j a o r : VaultSecret)
    (hmiss : cacheHit st t1 = none)
    (hj : reads1.jwtConfig = JsResult.ok (some j))
    (ha : reads1.authConfig = JsResult.ok (some a))
    (ho : reads1.oauthConfig = JsResult.ok (some o))
    (hr : reads1.redisConfig = JsResult.ok (some r))
    (ht : t2 - t1 < VaultConfigManager.CACHE_DURATION) :
    VaultConfigManager.getConfig st t1 env reads1 =
      { result := composeConfig j a o r,
        state := { config := some (composeConfig j a o r), configCacheTime := t1 },
        fetched := true } ∧
    VaultConfigManager.getConfig
        (VaultConfigManager.getConfig st t1 env reads1).state t2 env reads2 =
      { result := composeConfig j a o r,
        state := { config := some (composeConfig j a o r), configCacheTime := t1 },
        fetched := false } := by
  have hcomp : composeOutcome reads1 = some (composeConfig j a o r) := by
    simp [composeOutcome, okSome, hj, ha, ho, hr]
  have h1 : VaultConfigManager.getConfig st t1 env reads1 =
      { result := composeConfig j a o r,
        state := { config := some (composeConfig j a o r), configCacheTime := t1 },
        fetched := true } := by
    simp only [VaultConfigManager.getConfig, hmiss, hcomp]
  have hhit : cacheHit
      { config := some (composeConfig j a o r), configCacheTime := t1 } t2 =
      some (composeConfig j a o r) := by
    simp [cacheHit, ht]
  refine ⟨h1, ?_⟩
  rw [h1]
  simp only [VaultConfigManager.getConfig, hhit]

/-- Claim C2 witness: a fresh manager, a successful fetch at time 0, and a
second call at time 1000 (well inside the 5-minute window) that hits the
cache. -/
theorem getConfig_second_call_cache_hit_witness :
    cacheHit emptyState 0 = none ∧
    ((0 : Int) + 1000 - 0 < VaultConfigManager.CACHE_DURATION) ∧
    (VaultConfigManager.getConfig emptyState 0 envAllNone okReads =
      { result := okComposed,
        state := { config := some okComposed, configCacheTime := 0 },
        fetched := true } ∧
    VaultConfigManager.getConfig
        (VaultConfigManager.getConfig emptyState 0 envAllNone okReads).state
        (0 + 1000) envAllNone failingReads =
      { result := okComposed,
        state := { config := some okComposed, configCacheTime := 0 },
        fetched := false }) :=
  ⟨rfl, by decide,
   getConfig_second_call_cache_hit emptyState 0 (0 + 1000) envAllNone okReads
     failingReads _ _ _ _ rfl rfl rfl rfl rfl (by decide)⟩

/-- Claim C6: a successful `updateSecret` clears the stored cache entry and
resets its timestamp to 0, so the next `getConfig` call — at any time, under
any read outcomes — performs the 4-way fetch instead of returning a pre-write
cached entry. -/
theorem updateSecret_success_invalidates (st : ManagerState) (path : String) :
    VaultConfigManager.updateSecret st path (Except.ok ()) =
      (JsResult.ok (), { config := none, configCacheTime := 0 }) ∧
    ∀ (now : Int) (env : Env) (reads : SecretReads),
      (VaultConfigManager.getConfig { config := none, configCacheTime := 0 }
          now env reads).fetched = true := by
  constructor
  · rfl
  · intro now env reads
    have hm : cacheHit { config := none, configCacheTime := 0 } now = none := rfl
    simp only [VaultConfigManager.getConfig, hm]
    cases h : composeOutcome reads <;> simp [h]

/-- Claim C10: a failing `updateSecret` re-raises the write error and leaves
the cached entry and its timestamp unchanged, so a `getConfig` call within the
validity window still returns the pre-write cached configuration without
fetching. -/
theorem updateSecret_failure_preserves_cache
    (st : ManagerState) (path : String) (e : TransportError)
    (now : Int) (env : Env) (reads : SecretReads) (c : AuthServiceConfig)
    (hc : st.config = some c)
    (ht : now - st.configCacheTime < VaultConfigManager.CACHE_DURATION) :
    VaultConfigManager.updateSecret st path (Except.error e) =
      (JsResult.err ("Failed to write secret: " ++ path), st) ∧
    VaultConfigManager.getConfig st now env reads =
      { result := c, state := st, fetched := false } := by
  constructor
  · rfl
  · have hhit : cacheHit st now = some c := by simp [cacheHit, hc, ht]
    simp only [VaultConfigManager.getConfig, hhit]

/-- Claim C10 witness: a manager holding a cached config, a failing write at
a network error, and a read at time 1000 that still returns the pre-write
cached config. -/
theorem updateSecret_failure_preserves_cache_witness :
    cachedState.config = some (VaultConfigManager.getFallbackConfig envAllNone) ∧
    ((1000 : Int) - cachedState.configCacheTime <
      VaultConfigManager.CACHE_DURATION) ∧
    (VaultConfigManager.updateSecret cachedState "jwt/config"
        (Except.error { status := none, message := "connect ECONNREFUSED" }) =
      (JsResult.err "Failed to write secret: jwt/config", cachedState) ∧
    VaultConfigManager.getConfig cachedState 1000 envAllNone failingReads =
      { result := VaultConfigManager.getFallbackConfig envAllNone,
        state := cachedState, fetched := false }) :=
  ⟨rfl, by decide,
   updateSecret_failure_preserves_cache cachedState "jwt/config"
     { status := none, message := "connect ECONNREFUSED" } 1000 envAllNone
     failingReads (VaultConfigManager.getFallbackConfig envAllNone) rfl
     (by decide)⟩

/-- Claim C7: the fallback resolution is a total function of the process
environment alone (no transport outcome appears in its type, so it performs no
network I/O and always succeeds); each numeric field takes its documented
default when the corresponding variable is absent — sessionTimeout 1800,
maxLoginAttempts 5, lockoutDuration 900, redisPort 6379 — each string field
takes its documented environment-or-default value, and when the live path
fails `getConfig` returns exactly this fallback. -/
theorem getFallbackConfig_documented_defaults (env : Env)
    (h1 : env.SESSION_TIMEOUT = none) (h2 : env.MAX_LOGIN_ATTEMPTS = none)
    (h3 : env.LOCKOUT_DURATION = none) (h4 : env.REDIS_PORT = none) :
    (VaultConfigManager.getFallbackConfig env).sessionTimeout = 1800 ∧
    (VaultConfigManager.getFallbackConfig env).maxLoginAttempts = 5 ∧
    (VaultConfigManager.getFallbackConfig env).lockoutDuration = 900 ∧
    (VaultConfigManager.getFallbackConfig env).redisPort = 6379 ∧
    (env.JWT_SECRET = none →
      (VaultConfigManager.getFallbackConfig env).jwtSecret =
        JVal.str "fallback-secret-change-me") ∧
    (∀ s, env.JWT_SECRET = some s → s ≠ "" →
      (VaultConfigManager.getFallbackConfig env).jwtSecret = JVal.str s) ∧
    (env.GOOGLE_CLIENT_ID = none →
      (VaultConfigManager.getFallbackConfig env).googleClientId = JVal.str "") ∧
    (env.GOOGLE_CLIENT_SECRET = none →
      (VaultConfigManager.getFallbackConfig env).googleClientSecret =
        JVal.str "") ∧
    (env.OAUTH_CALLBACK_URL = none →
      (VaultConfigManager.getFallbackConfig env).oauthCallbackUrl =
        JVal.str "") ∧
    (env.REDIS_HOST = none →
      (VaultConfigManager.getFallbackConfig env).redisHost = JVal.str "redis") ∧
    (env.REDIS_PASSWORD = none →
      (VaultConfigManager.getFallbackConfig env).redisPassword = JVal.str "") ∧
    (∀ (st : ManagerState) (now : Int) (reads : SecretReads) (m : String),
      cacheHit st now = none → reads.jwtConfig = JsResult.err m →
      (VaultConfigManager.getConfig st now env reads).result =
        VaultConfigManager.getFallbackConfig env) := by
  refine ⟨?_, ?_, ?_, ?_, ?_, ?_, ?_, ?_, ?_, ?_, ?_, ?_⟩
  · simp [VaultConfigManager.getFallbackConfig, h1, envJVal, jsNumberOr, jsNumber]
  · simp [VaultConfigManager.getFallbackConfig, h2, envJVal, jsNumberOr, jsNumber]
  · simp [VaultConfigManager.getFallbackConfig, h3, envJVal, jsNumberOr, jsNumber]
  · simp [VaultConfigManager.getFallbackConfig, h4, envJVal, jsNumberOr, jsNumber]
  · intro hj
    simp [VaultConfigManager.getFallbackConfig, hj, jsStrOr]
  · intro s hs hne
    simp [VaultConfigManager.getFallbackConfig, hs, jsStrOr, hne]
  · intro hg
    simp [VaultConfigManager.getFallbackConfig, hg, jsStrOr]
  · intro hg
    simp [VaultConfigManager.getFallbackConfig, hg, jsStrOr]
  · intro hg
    simp [VaultConfigManager.getFallbackConfig, hg, jsStrOr]
  · intro hg
    simp [VaultConfigManager.getFallbackConfig, hg, jsStrOr]
  · intro hg
    simp [VaultConfigManager.getFallbackConfig, hg, jsStrOr]
  · intro st now reads m hmiss hj
    have hn := composeOutcome_eq_none_of_read_failure reads (Or.inl ⟨m, hj⟩)
    simp [VaultConfigManager.getConfig, hmiss, hn]

/-- Claim C7 witness: with every environment variable absent the fallback is
exactly the documented default configuration. -/
theorem getFallbackConfig_documented_defaults_witness :
    (VaultConfigManager.getFallbackConfig envAllNone).sessionTimeout = 1800 ∧
    (VaultConfigManager.getFallbackConfig envAllNone).maxLoginAttempts = 5 ∧
    (VaultConfigManager.getFallbackConfig envAllNone).lockoutDuration = 900 ∧
    (VaultConfigManager.getFallbackConfig envAllNone).redisPort = 6379 ∧
    (VaultConfigManager.getFallbackConfig envAllNone).jwtSecret =
      JVal.str "fallback-secret-change-me" ∧
    (VaultConfigManager.getFallbackConfig envAllNone).redisHost =
      JVal.str "redis" ∧
    (VaultConfigManager.getConfig emptyState 0 envAllNone failingReads).result =
      VaultConfigManager.getFallbackConfig envAllNone := by
  have h := getFallbackConfig_documented_defaults envAllNone rfl rfl rfl rfl
  exact ⟨h.1, h.2.1, h.2.2.1, h.2.2.2.1, h.2.2.2.2.1 rfl,
    h.2.2.2.2.2.2.2.2.2.1 rfl,
    h.2.2.2.2.2.2.2.2.2.2.2 emptyState 0 failingReads
      "Failed to read secret: jwt/config" rfl rfl⟩
